import Mathlib

/-!
# Verification of the tiktok-video-analyzer task-orchestration pipeline

Shallow embedding of the task state machine and pipeline orchestration of
the repository:

* `models/task.py` — the `TaskStatus` enum and the task record layout;
* `backend/gateway/services/task_manager.py` — the Redis-backed task store
  (`create_task`, `get_task`, `update_task` with merge-only-provided-fields
  semantics);
* `gateway/tasks/video_analysis.py` — the Celery pipeline task
  `analyze_video_task` (`max_retries=3`, `default_retry_delay=60`);
* `gateway/main.py` — the API operations `create_analysis_task` and
  `cancel_task`;
* `backend/gateway/main.py` + `services/script_manager.py` — the
  `generate_script` operation and the script store.

External collaborators (video downloader, Gemini analyzer, Feishu sync,
script generator) are modelled by their observable outcomes: each is a
record of the dictionary fields the orchestrator reads from the adapter's
return value.  Wall-clock fields (`created_at` / `updated_at`) and the
fire-and-forget callback POSTs are I/O side effects that no claim observes
and are not part of the state model.
-/

namespace TikTokAnalyzer

/-- `TaskStatus` enum from `models/task.py`. -/
inductive TaskStatus where
  | pending
  | downloading
  | analyzing
  | syncing
  | completed
  | failed
deriving DecidableEq, Repr

/-- The `.value` string of a `TaskStatus` member (Python `str, Enum`). -/
def TaskStatus.toValue : TaskStatus → String
  | .pending => "pending"
  | .downloading => "downloading"
  | .analyzing => "analyzing"
  | .syncing => "syncing"
  | .completed => "completed"
  | .failed => "failed"

/-- The metadata dictionary returned by the video download adapter, as read
by the pipeline (`metadata.get("title")`, `.get("author")`, `.get("duration")`,
`.get("description")`, `.get("hashtags", [])`).  Durations are modelled as
naturals; no claim depends on their numeric value. -/
structure Metadata where
  title : Option String
  author : Option String
  duration : Option Nat
  description : Option String
  hashtags : List String
deriving DecidableEq, Repr

/-- The normalized analysis result assembled in `analyze_video_task`
(`gateway/tasks/video_analysis.py`, the `analysis_result` dict). -/
structure AnalysisResult where
  video_title : Option String
  author : Option String
  duration : Option Nat
  description : Option String
  hashtags : List String
  ai_analysis : Option String
  content_summary : Option String
  key_topics : List String
  sentiment : Option String
  engagement_prediction : Option String
  recommendations : List String
  raw_metadata : Metadata
deriving DecidableEq, Repr

/-- A persisted task record: the `task_data` dictionary written by
`TaskManager.create_task` in `backend/gateway/services/task_manager.py`
(timestamp fields elided). -/
structure TaskData where
  task_id : String
  url : String
  callback_url : Option String
  analysis_prompt : Option String
  sync_to_feishu : Bool
  sync_to_notion : Bool
  status : TaskStatus
  progress : Nat
  message : String
  result : Option AnalysisResult
  error : Option String
  video_path : Option String
  feishu_record_id : Option String
  notion_page_id : Option String
deriving DecidableEq, Repr

/-- The optional keyword arguments of `update_task`
(`backend/gateway/services/task_manager.py`): a field left as `none` is not
touched by the update (Python `if x is not None: task_data[...] = x`). -/
structure UpdateFields where
  status : Option TaskStatus := none
  progress : Option Nat := none
  message : Option String := none
  result : Option AnalysisResult := none
  error : Option String := none
  video_path : Option String := none
  feishu_record_id : Option String := none
  notion_page_id : Option String := none
deriving DecidableEq, Repr

/-- Merge semantics of `update_task`: every provided field overwrites the
stored one, absent fields are kept. -/
def applyUpdate (t : TaskData) (u : UpdateFields) : TaskData :=
  { t with
    status := u.status.getD t.status
    progress := u.progress.getD t.progress
    message := u.message.getD t.message
    result := match u.result with | some r => some r | none => t.result
    error := match u.error with | some e => some e | none => t.error
    video_path := match u.video_path with | some v => some v | none => t.video_path
    feishu_record_id := match u.feishu_record_id with | some f => some f | none => t.feishu_record_id
    notion_page_id := match u.notion_page_id with | some n => some n | none => t.notion_page_id }

/-- Folding a sequence of `update_task` calls over one record. -/
def applyAll (t : TaskData) (l : List UpdateFields) : TaskData :=
  l.foldl applyUpdate t

/-- The key-value task store (Redis keyed by `tiktok:task:{task_id}`),
modelled as an association list from task id to record. -/
abbrev Store := List (String × TaskData)

/-- `get_task`: fetch a record by id (`None` on a store miss). -/
def getTask (s : Store) (id : String) : Option TaskData :=
  match s.find? (fun p => p.fst == id) with
  | some p => some p.snd
  | none => none

/-- Overwrite the record stored under an existing key (`setex`). -/
def setTask (s : Store) (id : String) (t : TaskData) : Store :=
  s.map (fun p => if p.fst == id then (id, t) else p)

/-- `update_task`: read, merge the provided fields, write back; returns the
store unchanged when the key is absent (the Python method returns `False`,
a value the pipeline ignores). -/
def updateTask (s : Store) (id : String) (u : UpdateFields) : Store :=
  match getTask s id with
  | none => s
  | some t => setTask s id (applyUpdate t u)

/-- The initial record written by `TaskManager.create_task`. -/
def createTaskData (task_id url : String) (callback_url analysis_prompt : Option String)
    (sync_to_feishu sync_to_notion : Bool) : TaskData :=
  { task_id := task_id
    url := url
    callback_url := callback_url
    analysis_prompt := analysis_prompt
    sync_to_feishu := sync_to_feishu
    sync_to_notion := sync_to_notion
    status := .pending
    progress := 0
    message := "Task created, waiting to start"
    result := none
    error := none
    video_path := none
    feishu_record_id := none
    notion_page_id := none }

/-- `create_task`: write a fresh record under a freshly generated id (the
`uuid4`-based id is passed in as a parameter of the model). -/
def createTask (s : Store) (freshId url : String)
    (callback_url analysis_prompt : Option String)
    (sync_to_feishu sync_to_notion : Bool) : Store :=
  s ++ [(freshId, createTaskData freshId url callback_url analysis_prompt
    sync_to_feishu sync_to_notion)]

/-! ## Adapter outcomes

Each external collaborator is modelled by the dictionary fields the
orchestrator reads from its return value. -/

/-- Outcome of `TikTokDownloader.download` (`video_download/download.py`):
a dict with `success`, an optional `error`, `video_path` (present on
success) and `metadata` (`.get("metadata", {})`). -/
structure DownloadOutcome where
  success : Bool
  error : Option String
  video_path : String
  metadata : Metadata
deriving DecidableEq, Repr

/-- Outcome of `GeminiVideoAnalyzer.analyze` (`ai_analysis/analyze.py`):
`success`, optional `error`, and the analysis payload fields the pipeline
reads via `.get`. -/
structure AiOutcome where
  success : Bool
  error : Option String
  analysis : Option String
  summary : Option String
  topics : List String
  sentiment : Option String
  engagement_prediction : Option String
  recommendations : List String
deriving DecidableEq, Repr

/-- Outcome of `FeishuBitableSync.sync_analysis`
(`backend/skills/data_sync/bitable_sync.py`): that method wraps its body in
a `try`/`except` returning `{"success": False, "error": ...}`, so it is a
total function into this record. -/
structure SyncOutcome where
  success : Bool
  record_id : Option String
  error : Option String
deriving DecidableEq, Repr

/-- The adapter outcomes observed by one pipeline execution. -/
structure Adapters where
  download : DownloadOutcome
  ai : AiOutcome
  sync : SyncOutcome
deriving DecidableEq, Repr

/-- The `analysis_result` dict assembled in `analyze_video_task` from the
download metadata and the analyzer payload. -/
def buildAnalysisResult (md : Metadata) (ai : AiOutcome) : AnalysisResult :=
  { video_title := md.title
    author := md.author
    duration := md.duration
    description := md.description
    hashtags := md.hashtags
    ai_analysis := ai.analysis
    content_summary := ai.summary
    key_topics := ai.topics
    sentiment := ai.sentiment
    engagement_prediction := ai.engagement_prediction
    recommendations := ai.recommendations
    raw_metadata := md }

/-! ## The pipeline — `analyze_video_task` in `gateway/tasks/video_analysis.py` -/

/-- How one pipeline execution ends: the record was absent (logged and
dropped), the `try` block ran to completion, or an exception carrying the
stage error message reached the `except` block. -/
inductive AttemptOutcome where
  | notFound
  | success
  | failure (msg : String)
deriving DecidableEq, Repr

/-- The message of the exception raised on a download failure:
`f"Download failed: {download_result.get('error', 'Unknown error')}"`. -/
def downloadErrorMsg (dl : DownloadOutcome) : String :=
  "Download failed: " ++ dl.error.getD "Unknown error"

/-- The message of the exception raised on an analysis failure:
`f"Analysis failed: {ai_result.get('error', 'Unknown error')}"`. -/
def analysisErrorMsg (ai : AiOutcome) : String :=
  "Analysis failed: " ++ ai.error.getD "Unknown error"

/-- Stage-1 entry write: status Downloading, progress 10. -/
def updDownloading : UpdateFields :=
  { status := some .downloading, progress := some 10
    message := some "Downloading video from TikTok..." }

/-- Post-download write: progress 30, `video_path` stored. -/
def updDownloaded (dl : DownloadOutcome) : UpdateFields :=
  { progress := some 30, message := some "Video downloaded successfully"
    video_path := some dl.video_path }

/-- Stage-2 entry write: status Analyzing, progress 40. -/
def updAnalyzing : UpdateFields :=
  { status := some .analyzing, progress := some 40
    message := some "Analyzing video with Gemini AI..." }

/-- Post-analysis write: progress 70, `result` populated. -/
def updAnalyzed (res : AnalysisResult) : UpdateFields :=
  { progress := some 70, message := some "AI analysis completed"
    result := some res }

/-- Stage-3 entry write: status Syncing, progress 80. -/
def updSyncing : UpdateFields :=
  { status := some .syncing, progress := some 80
    message := some "Syncing results to Feishu Bitable..." }

/-- Completion write: status Completed, progress 100, final result and the
Feishu record id obtained from the sync stage (if any). -/
def updCompleted (res : AnalysisResult) (rid : Option String) : UpdateFields :=
  { status := some .completed, progress := some 100
    message := some "Analysis completed successfully"
    result := some res, feishu_record_id := rid }

/-- Failure write from the `except` block: status Failed, message
`f"Task failed: {error_msg}"`, `error` set to the exception text; no
progress field is passed. -/
def updFailed (msg : String) : UpdateFields :=
  { status := some .failed, message := some ("Task failed: " ++ msg)
    error := some msg }

/-- The ordered `update_task` calls of one pipeline execution and its
outcome, given the record's `sync_to_feishu` flag and the adapter outcomes.
Mirrors the `try`/`except` control flow of `analyze_video_task`: the
Downloading write happens before the download is attempted; a raised stage
failure appends exactly the `updFailed` write; on success the Syncing write
happens only when the sync flag is set, and the completion write carries
the sync record id only when the sync adapter reported success. -/
def attemptUpdates (syncFlag : Bool) (a : Adapters) : List UpdateFields × AttemptOutcome :=
  if a.download.success then
    if a.ai.success then
      let res := buildAnalysisResult a.download.metadata a.ai
      let rid : Option String := if syncFlag && a.sync.success then a.sync.record_id else none
      ([updDownloading, updDownloaded a.download, updAnalyzing, updAnalyzed res]
        ++ (if syncFlag then [updSyncing] else []) ++ [updCompleted res rid],
       .success)
    else
      ([updDownloading, updDownloaded a.download, updAnalyzing,
        updFailed (analysisErrorMsg a.ai)],
       .failure (analysisErrorMsg a.ai))
  else
    ([updDownloading, updFailed (downloadErrorMsg a.download)],
     .failure (downloadErrorMsg a.download))

/-- One store-level pipeline execution: load the record by id (abort when
absent), then perform the stage writes in order, each an atomic
read-merge-write against the store. -/
def runAttempt (s : Store) (id : String) (a : Adapters) : Store × AttemptOutcome :=
  match getTask s id with
  | none => (s, .notFound)
  | some t =>
    let (upds, out) := attemptUpdates t.sync_to_feishu a
    (upds.foldl (fun s2 u => updateTask s2 id u) s, out)

/-- Result of running the Celery task to completion: the final store, the
number of times the pipeline body executed, and the inter-attempt delays
(seconds) from `raise self.retry(...)` with `default_retry_delay=60`. -/
structure RunResult where
  store : Store
  executions : Nat
  delays : List Nat
deriving DecidableEq, Repr

/-- Celery's retry configuration on `analyze_video_task`:
`@celery_app.task(bind=True, max_retries=3, default_retry_delay=60)`. -/
def maxRetries : Nat := 3

/-- `default_retry_delay` of `analyze_video_task`, in seconds. -/
def defaultRetryDelay : Nat := 60

/-- The Celery execution loop: run the task body; on a raised failure with
`self.request.retries < self.max_retries`, `raise self.retry(exc=e)`
re-executes the whole body after the default delay with `retries`
incremented.  `adv k` gives the adapter outcomes observed by the execution
with `retries = k`.  The `fuel` argument is a structural-recursion bound;
`maxRetries + 1` fuel is enough for every run. -/
def celeryLoop (adv : Nat → Adapters) (id : String) :
    Nat → Store → Nat → RunResult
  | 0, s, _ => ⟨s, 0, []⟩
  | fuel + 1, s, retries =>
    let (s1, out) := runAttempt s id (adv retries)
    match out with
    | .failure _ =>
      if retries < maxRetries then
        let r := celeryLoop adv id fuel s1 (retries + 1)
        ⟨r.store, r.executions + 1, defaultRetryDelay :: r.delays⟩
      else ⟨s1, 1, []⟩
    | _ => ⟨s1, 1, []⟩

/-- The complete run of the queued `analyze_video_task` job for one task
id, retries included. -/
def analyze_video_task (s : Store) (id : String) (adv : Nat → Adapters) : RunResult :=
  celeryLoop adv id (maxRetries + 1) s 0

/-- Record-level mirror of `celeryLoop`: the flat list of `update_task`
writes the whole run performs on the task record, the execution count and
the delays, computed from the record's sync flag and the adapter outcomes
alone. -/
def celerySpec (adv : Nat → Adapters) (syncFlag : Bool) :
    Nat → Nat → List UpdateFields × Nat × List Nat
  | 0, _ => ([], 0, [])
  | fuel + 1, retries =>
    let (upds, out) := attemptUpdates syncFlag (adv retries)
    match out with
    | .failure _ =>
      if retries < maxRetries then
        let (upds2, n, ds) := celerySpec adv syncFlag fuel (retries + 1)
        (upds ++ upds2, n + 1, defaultRetryDelay :: ds)
      else (upds, 1, [])
    | _ => (upds, 1, [])

/-- The update trace of the full run. -/
def runUpdates (adv : Nat → Adapters) (syncFlag : Bool) : List UpdateFields :=
  (celerySpec adv syncFlag (maxRetries + 1) 0).fst

/-! ## API operations — `gateway/main.py` -/

/-- Request body of `POST /api/v1/analyze` (`VideoAnalysisRequest` in
`models/task.py`). -/
structure VideoAnalysisRequest where
  url : String
  callback_url : Option String
  analysis_prompt : Option String
  sync_to_feishu : Bool
deriving DecidableEq, Repr

/-- The URL check of `create_analysis_task`:
`any(domain in request.url for domain in ["tiktok.com", "douyin.com"])` —
Python substring containment, not a hostname comparison. -/
def urlPassesGatewayCheck (url : String) : Bool :=
  ["tiktok.com", "douyin.com"].any (fun d => decide (d.toList <:+: url.toList))

/-- Response of `create_analysis_task`: a 400 validation rejection or the
created-and-queued acknowledgement (task id, status Pending). -/
inductive CreateResponse where
  | badRequest (detail : String)
  | created (task_id : String) (status : TaskStatus) (message : String)
deriving DecidableEq, Repr

/-- `create_analysis_task`: validate the URL; on failure raise a 400 before
touching the store or the queue; otherwise create the record (fresh id
passed in for `uuid4`) and enqueue the Celery job
(`analyze_video_task.delay(task_id)`), returning the queued task ids. -/
def create_analysis_task (req : VideoAnalysisRequest) (freshId : String)
    (s : Store) (queue : List String) : CreateResponse × Store × List String :=
  if urlPassesGatewayCheck req.url then
    let s2 := createTask s freshId req.url req.callback_url req.analysis_prompt
      req.sync_to_feishu true
    (.created freshId .pending "Task created and queued for processing", s2,
      queue ++ [freshId])
  else
    (.badRequest "Invalid URL. Must be a TikTok or Douyin video URL.", s, queue)

/-- The characters following the first occurrence of "://", when there is
one. -/
def afterSchemeChars : List Char → Option (List Char)
  | [] => none
  | c :: rest =>
    if c = ':' ∧ ['/', '/'].isPrefixOf rest then
      some (rest.drop 2)
    else afterSchemeChars rest

/-- The host characters: everything up to the first path, query or
fragment delimiter. -/
def takeHostChars : List Char → List Char
  | [] => []
  | c :: rest =>
    if c = '/' ∨ c = '?' ∨ c = '#' then []
    else c :: takeHostChars rest

/-- Modelled from the spec: the spec phrases validation as the URL
"not matching allowed video-platform domains" (TikTok or Douyin).  This
extracts the URL's host — the part after any `scheme://`, up to the first
path, query or fragment delimiter. -/
def hostOf (url : String) : String :=
  let cs := url.toList
  String.mk (takeHostChars (match afterSchemeChars cs with
    | some r => r
    | none => cs))

/-- Modelled from the spec: host-level domain match against the allowed
video-platform domains — the host is the platform domain itself or a
subdomain of it.  This definition follows the spec words; it exists only to
be compared with the code's substring check `urlPassesGatewayCheck`. -/
def urlMatchesAllowedDomain (url : String) : Bool :=
  ["tiktok.com", "douyin.com"].any
    (fun d => hostOf url == d
      || ("." ++ d).toList.isSuffixOf (hostOf url).toList)

/-- Response of `DELETE /api/v1/task/{task_id}`: 404, the 400 conflict
raised for a non-Pending task (carrying the offending status), or
success. -/
inductive CancelResponse where
  | notFound
  | conflict (status : TaskStatus)
  | ok (message : String)
deriving DecidableEq, Repr

/-- `cancel_task`: fetch the record; 404 when absent; reject with a 400
conflict when the status is not Pending (the store is not written at all);
otherwise set status Failed, message "Task cancelled by user" and error
"Cancelled". -/
def cancel_task (s : Store) (id : String) : CancelResponse × Store :=
  match getTask s id with
  | none => (.notFound, s)
  | some t =>
    if t.status = .pending then
      (.ok ("Task " ++ id ++ " cancelled"),
        updateTask s id
          { status := some .failed, message := some "Task cancelled by user"
            error := some "Cancelled" })
    else
      (.conflict t.status, s)

/-! ## Script generation — `backend/gateway/main.py` and
`services/script_manager.py` -/

/-- A persisted script record (`save_script` in `script_manager.py`,
timestamps elided).  `script_data` is the generated document, modelled as
the key-value pairs of the dumped dict; Python truthiness of the dict is
non-emptiness of this list. -/
structure ScriptRecord where
  script_id : String
  video_analysis_id : String
  script_type : String
  script_data : List (String × String)
deriving DecidableEq, Repr

/-- The script store: Redis keyed by `tiktok:script:{video_analysis_id}`. -/
abbrev ScriptStore := List (String × ScriptRecord)

/-- `get_script`: lookup by originating task id. -/
def getScript (s : ScriptStore) (vid : String) : Option ScriptRecord :=
  match s.find? (fun p => p.fst == vid) with
  | some p => some p.snd
  | none => none

/-- `save_script`: `setex` under the task-id key — overwrite an existing
record or add a new one; a fresh `script_id` is generated on every call. -/
def saveScript (s : ScriptStore) (vid : String) (r : ScriptRecord) : ScriptStore :=
  match s.find? (fun p => p.fst == vid) with
  | some _ => s.map (fun p => if p.fst == vid then (vid, r) else p)
  | none => s ++ [(vid, r)]

/-- Outcome of `ScriptGenerator.generate_with_retry`: `success`, the dumped
script document, or an error. -/
structure GenOutcome where
  success : Bool
  script : List (String × String)
  error : Option String
deriving DecidableEq, Repr

/-- Response of `POST /api/v1/generate-script`: 404, a 400 precondition
failure, a 500 (missing API key or generation failure), or the script
(task_id of the response is the script id). -/
inductive ScriptResponse where
  | notFound (detail : String)
  | badRequest (detail : String)
  | serverError (detail : String)
  | ok (script_id : String) (script : List (String × String))
deriving DecidableEq, Repr

/-- The generate-and-persist tail of `generate_script`: check that the
Gemini API key is configured (500 otherwise), invoke the generator and
persist the dumped document under a fresh script id; a generator failure is
a 500.  The returned `Bool` records that the generation adapter was
invoked. -/
def generateAndSave (apiKey vid script_type : String) (scripts : ScriptStore)
    (gen : GenOutcome) (freshScriptId : String) :
    ScriptResponse × ScriptStore × Bool :=
  if apiKey = "" then
    (.serverError "Gemini API key not configured", scripts, false)
  else if gen.success then
    (.ok freshScriptId gen.script,
      saveScript scripts vid
        { script_id := freshScriptId, video_analysis_id := vid
          script_type := script_type, script_data := gen.script },
      true)
  else
    (.serverError ("Script generation failed: " ++ gen.error.getD "None"), scripts, true)

/-- `generate_script`: load the analysis task (404 when absent, 400 when
not Completed or without a result); return the stored script if one with a
truthy `script_data` exists, without calling the generator; otherwise
generate and persist via `generateAndSave`.  The returned `Bool` records
whether the generation adapter was invoked. -/
def generate_script (apiKey : String) (vid script_type : String)
    (tasks : Store) (scripts : ScriptStore) (gen : GenOutcome)
    (freshScriptId : String) : ScriptResponse × ScriptStore × Bool :=
  match getTask tasks vid with
  | none => (.notFound ("Video analysis task " ++ vid ++ " not found"), scripts, false)
  | some task =>
    if task.status ≠ .completed then
      (.badRequest "Video analysis is not completed", scripts, false)
    else
      match task.result with
      | none => (.badRequest "Video analysis has no results", scripts, false)
      | some _ =>
        match getScript scripts vid with
        | some existing =>
          if existing.script_data ≠ [] then
            (.ok existing.script_id existing.script_data, scripts, false)
          else
            generateAndSave apiKey vid script_type scripts gen freshScriptId
        | none =>
          generateAndSave apiKey vid script_type scripts gen freshScriptId

/-! ## Store lemmas -/

theorem getTask_setTask_self {s : Store} {id : String} {t t2 : TaskData}
    (h : getTask s id = some t) : getTask (setTask s id t2) id = some t2 := by
  induction s with
  | nil => simp [getTask] at h
  | cons p rest ih =>
    by_cases hp : p.fst == id
    · simp [getTask, setTask, List.find?, hp]
    · simp only [getTask, setTask, List.find?, hp] at h ⊢
      simp only [Bool.false_eq_true, if_false] at *
      have h2 : (p.fst == id) = false := by
        cases hb : p.fst == id with
        | true => exact absurd hb hp
        | false => rfl
      simp only [h2] at h ⊢
      exact ih h

theorem getTask_updateTask_self {s : Store} {id : String} {t : TaskData}
    (u : UpdateFields) (h : getTask s id = some t) :
    getTask (updateTask s id u) id = some (applyUpdate t u) := by
  unfold updateTask
  rw [h]
  exact getTask_setTask_self h

theorem getTask_foldUpdates {id : String} :
    ∀ (l : List UpdateFields) (s : Store) (t : TaskData), getTask s id = some t →
      getTask (l.foldl (fun s2 u => updateTask s2 id u) s) id = some (applyAll t l) := by
  intro l
  induction l with
  | nil => intro s t h; simpa [applyAll] using h
  | cons u us ih =>
    intro s t h
    have h1 := getTask_updateTask_self u h
    simpa [applyAll, List.foldl_cons] using ih (updateTask s id u) (applyUpdate t u) h1

theorem applyUpdate_sync_to_feishu (t : TaskData) (u : UpdateFields) :
    (applyUpdate t u).sync_to_feishu = t.sync_to_feishu := rfl

theorem applyAll_sync_to_feishu :
    ∀ (l : List UpdateFields) (t : TaskData), (applyAll t l).sync_to_feishu = t.sync_to_feishu := by
  intro l
  induction l with
  | nil => intro t; rfl
  | cons u us ih =>
    intro t
    simpa [applyAll, List.foldl_cons] using ih (applyUpdate t u)

theorem applyAll_append (t : TaskData) (l1 l2 : List UpdateFields) :
    applyAll t (l1 ++ l2) = applyAll (applyAll t l1) l2 := by
  simp [applyAll, List.foldl_append]

/-- A stored `error` is never cleared: `update_task` only writes the field
when a value is provided, so the field can move from `none` to `some` but
never back. -/
theorem applyUpdate_error_none {t : TaskData} {u : UpdateFields}
    (h : (applyUpdate t u).error = none) : t.error = none := by
  unfold applyUpdate at h
  cases he : u.error with
  | none => simpa [he] using h
  | some e => simp [he] at h

theorem applyAll_error_none :
    ∀ {l : List UpdateFields} {t : TaskData}, (applyAll t l).error = none → t.error = none := by
  intro l
  induction l with
  | nil => intro t h; simpa [applyAll] using h
  | cons u us ih =>
    intro t h
    have : (applyAll (applyUpdate t u) us).error = none := by
      simpa [applyAll, List.foldl_cons] using h
    exact applyUpdate_error_none (ih this)

/-! ## Bridging the store-level run and the record-level update trace -/

theorem celeryLoop_spec (adv : Nat → Adapters) (id : String) :
    ∀ (fuel retries : Nat) (s : Store) (t : TaskData), getTask s id = some t →
      getTask (celeryLoop adv id fuel s retries).store id
        = some (applyAll t (celerySpec adv t.sync_to_feishu fuel retries).fst)
      ∧ (celeryLoop adv id fuel s retries).executions
        = (celerySpec adv t.sync_to_feishu fuel retries).snd.fst
      ∧ (celeryLoop adv id fuel s retries).delays
        = (celerySpec adv t.sync_to_feishu fuel retries).snd.snd := by
  intro fuel
  induction fuel with
  | zero =>
    intro retries s t h
    refine ⟨?_, rfl, rfl⟩
    simpa [celeryLoop, celerySpec, applyAll] using h
  | succ n ih =>
    intro retries s t h
    rcases hA : attemptUpdates t.sync_to_feishu (adv retries) with ⟨upds, out⟩
    have hRun : runAttempt s id (adv retries)
        = (upds.foldl (fun s2 u => updateTask s2 id u) s, out) := by
      simp [runAttempt, h, hA]
    have h1 : getTask (upds.foldl (fun s2 u => updateTask s2 id u) s) id
        = some (applyAll t upds) := getTask_foldUpdates upds s t h
    cases out with
    | notFound =>
      simp only [celeryLoop, celerySpec, hRun, hA]
      exact ⟨h1, trivial, trivial⟩
    | success =>
      simp only [celeryLoop, celerySpec, hRun, hA]
      exact ⟨h1, trivial, trivial⟩
    | failure msg =>
      by_cases hr : retries < maxRetries
      · have ih2 := ih (retries + 1) (upds.foldl (fun s2 u => updateTask s2 id u) s)
          (applyAll t upds) h1
        rw [applyAll_sync_to_feishu upds t] at ih2
        simp only [celeryLoop, celerySpec, hRun, hA, if_pos hr]
        rcases hS : celerySpec adv t.sync_to_feishu n (retries + 1) with ⟨upds2, n2, ds2⟩
        rw [hS] at ih2
        refine ⟨?_, ?_, ?_⟩
        · rw [ih2.1, applyAll_append]
        · simp [ih2.2.1]
        · simp [ih2.2.2]
      · simp only [celeryLoop, celerySpec, hRun, hA, if_neg hr]
        exact ⟨h1, trivial, trivial⟩

/-- The full run, at the record level: the stored record after the queued
job finishes is the initial record with the whole update trace applied, and
the execution count and delays match the record-level mirror. -/
theorem analyze_video_task_spec {s : Store} {id : String} {t : TaskData}
    (adv : Nat → Adapters) (h : getTask s id = some t) :
    getTask (analyze_video_task s id adv).store id
      = some (applyAll t (runUpdates adv t.sync_to_feishu))
    ∧ (analyze_video_task s id adv).executions
      = (celerySpec adv t.sync_to_feishu (maxRetries + 1) 0).snd.fst
    ∧ (analyze_video_task s id adv).delays
      = (celerySpec adv t.sync_to_feishu (maxRetries + 1) 0).snd.snd :=
  celeryLoop_spec adv id (maxRetries + 1) 0 s t h

/-! ## Terminal-state stability along the run -/

/-- The stored record after each point of a write sequence: the initial
record followed by the record after every successive `update_task`. -/
def snapshots (t : TaskData) : List UpdateFields → List TaskData
  | [] => [t]
  | u :: us => t :: snapshots (applyUpdate t u) us

/-- The status of the stored record at each point of a write sequence. -/
def statusTrace (t : TaskData) (l : List UpdateFields) : List TaskStatus :=
  (snapshots t l).map (fun x => x.status)

/-- `completedStable l = true` iff whenever `Completed` occurs in `l`,
every later element of `l` is also `Completed` — i.e. the status never
leaves `Completed` once reached. -/
def completedStable : List TaskStatus → Bool
  | [] => true
  | st :: rest =>
    ((!(st == TaskStatus.completed)) || rest.all (fun x => x == TaskStatus.completed))
      && completedStable rest

theorem statusTrace_cons (t : TaskData) (u : UpdateFields) (us : List UpdateFields) :
    statusTrace t (u :: us) = t.status :: statusTrace (applyUpdate t u) us := rfl

theorem completedStable_cons_of_ne {st : TaskStatus} (l : List TaskStatus)
    (h : st ≠ .completed) : completedStable (st :: l) = completedStable l := by
  have hb : (st == TaskStatus.completed) = false := by
    cases st <;> simp_all
  simp [completedStable, hb]

/-- Status written by the failure update. -/
theorem applyUpdate_failed_status (t : TaskData) (msg : String) :
    (applyUpdate t (updFailed msg)).status = .failed := rfl

/-- Along the update trace of a full run of `analyze_video_task` (initial
execution and every retry), a snapshot with status `Completed` is never
followed by a snapshot with a different status: the completion write is the
last write of a successful execution and a successful execution is never
retried. -/
theorem completedStable_celery (adv : Nat → Adapters) (flag : Bool) :
    ∀ (fuel retries : Nat) (t : TaskData), t.status ≠ .completed →
      completedStable (statusTrace t (celerySpec adv flag fuel retries).fst) = true := by
  intro fuel
  induction fuel with
  | zero =>
    intro retries t ht
    simp [celerySpec, statusTrace, snapshots, completedStable]
  | succ n ih =>
    intro retries t ht
    cases hdl : (adv retries).download.success with
    | true =>
      cases hai : (adv retries).ai.success with
      | true =>
        -- successful execution: no retry, the completion write is last
        simp only [celerySpec, attemptUpdates, hdl, hai, if_true]
        cases hf : flag with
        | true =>
          simp only [if_true, List.cons_append, List.nil_append, statusTrace_cons]
          rw [completedStable_cons_of_ne _ ht]
          simp [statusTrace, snapshots, completedStable, applyUpdate,
            updDownloading, updDownloaded, updAnalyzing, updAnalyzed,
            updSyncing, updCompleted]
        | false =>
          simp only [if_false, List.cons_append, List.nil_append, statusTrace_cons]
          rw [completedStable_cons_of_ne _ ht]
          simp [statusTrace, snapshots, completedStable, applyUpdate,
            updDownloading, updDownloaded, updAnalyzing, updAnalyzed,
            updCompleted]
      | false =>
        -- analysis failure: no completion write in this execution
        simp only [celerySpec, attemptUpdates, hdl, hai, if_true,
          Bool.false_eq_true, if_false]
        by_cases hr : retries < maxRetries
        · rw [if_pos hr]
          rcases hS : celerySpec adv flag n (retries + 1) with ⟨upds2, n2, ds2⟩
          simp only [List.cons_append, List.nil_append, statusTrace_cons]
          rw [completedStable_cons_of_ne _ ht]
          rw [completedStable_cons_of_ne _ (by simp [applyUpdate, updDownloading, updDownloaded, updAnalyzing, updFailed])]
          rw [completedStable_cons_of_ne _ (by simp [applyUpdate, updDownloading, updDownloaded, updAnalyzing, updFailed])]
          rw [completedStable_cons_of_ne _ (by simp [applyUpdate, updDownloading, updDownloaded, updAnalyzing, updFailed])]
          have h2 := ih (retries + 1)
            (applyUpdate (applyUpdate (applyUpdate (applyUpdate t updDownloading)
              (updDownloaded (adv retries).download)) updAnalyzing)
              (updFailed (analysisErrorMsg (adv retries).ai)))
            (by simp [applyUpdate, updDownloading, updDownloaded, updAnalyzing, updFailed])
          rw [hS] at h2
          exact h2
        · rw [if_neg hr]
          simp only [statusTrace_cons]
          rw [completedStable_cons_of_ne _ ht]
          simp [statusTrace, snapshots, completedStable, applyUpdate,
            updDownloading, updDownloaded, updAnalyzing, updFailed]
    | false =>
      -- download failure: no completion write in this execution
      simp only [celerySpec, attemptUpdates, hdl, Bool.false_eq_true, if_false]
      by_cases hr : retries < maxRetries
      · rw [if_pos hr]
        rcases hS : celerySpec adv flag n (retries + 1) with ⟨upds2, n2, ds2⟩
        simp only [List.cons_append, List.nil_append, statusTrace_cons]
        rw [completedStable_cons_of_ne _ ht]
        rw [completedStable_cons_of_ne _ (by simp [applyUpdate, updDownloading, updDownloaded, updAnalyzing, updFailed])]
        have h2 := ih (retries + 1)
          (applyUpdate (applyUpdate t updDownloading)
            (updFailed (downloadErrorMsg (adv retries).download)))
          (by simp [applyUpdate, updDownloading, updDownloaded, updAnalyzing, updFailed])
        rw [hS] at h2
        exact h2
      · rw [if_neg hr]
        simp only [statusTrace_cons]
        rw [completedStable_cons_of_ne _ ht]
        simp [statusTrace, snapshots, completedStable, applyUpdate,
          updDownloading, updFailed]

/-! ## Concrete fixtures for counterexamples and witnesses -/

/-- Example download metadata. -/
def exMetadata : Metadata :=
  ⟨some "Amazing Video", some "creator", some 30, some "desc", ["fun"]⟩

/-- A successful download outcome. -/
def exDownloadOk : DownloadOutcome := ⟨true, none, "/videos/v.mp4", exMetadata⟩

/-- A download outcome that failed with adapter error message "boom". -/
def exDownloadBoom : DownloadOutcome := ⟨false, some "boom", "", exMetadata⟩

/-- A successful analysis outcome. -/
def exAiOk : AiOutcome :=
  ⟨true, none, some "analysis text", some "summary", ["topic"], some "positive",
    some "high", ["tip"]⟩

/-- A successful sync outcome. -/
def exSyncOk : SyncOutcome := ⟨true, some "rec_123", none⟩

/-- A failed sync outcome. -/
def exSyncFail : SyncOutcome := ⟨false, none, some "permission denied"⟩

/-- All adapters succeed, on every execution. -/
def exAdvOk : Nat → Adapters := fun _ => ⟨exDownloadOk, exAiOk, exSyncOk⟩

/-- The download adapter fails with "boom" on every execution. -/
def exAdvDlFail : Nat → Adapters := fun _ => ⟨exDownloadBoom, exAiOk, exSyncOk⟩

/-- The download adapter fails with "boom" on the first execution and every
adapter succeeds from the first retry on. -/
def exAdvFlaky : Nat → Adapters := fun k =>
  if k = 0 then ⟨exDownloadBoom, exAiOk, exSyncOk⟩ else ⟨exDownloadOk, exAiOk, exSyncOk⟩

/-- All adapters succeed but the sync destination fails. -/
def exAdvSyncFail : Nat → Adapters := fun _ => ⟨exDownloadOk, exAiOk, exSyncFail⟩

/-- A freshly created task record (sync to Feishu requested). -/
def exTask : TaskData :=
  createTaskData "t1" "https://www.tiktok.com/@x/video/123" none none true true

/-- A store holding only the freshly created task. -/
def exStore : Store := [("t1", exTask)]

/-- The store after the Pending task was cancelled through the API:
status Failed, error "Cancelled". -/
def exCancelledStore : Store := (cancel_task exStore "t1").snd

/-- A store holding a Completed record with a populated result. -/
def exDoneTask : TaskData :=
  { exTask with
    status := .completed
    progress := 100
    result := some (buildAnalysisResult exMetadata exAiOk) }

/-- Store holding the Completed task. -/
def exDoneStore : Store := [("t1", exDoneTask)]

/-- A generation outcome that succeeded with a non-empty document. -/
def exGenOk : GenOutcome := ⟨true, [("script_version", "1.0")], none⟩

/-! ## Claims -/

/-- C1, counterexample.  The claim says that a record whose status is
Completed or Failed is never moved to Downloading, Analyzing, Syncing or
Pending by any pipeline execution or API operation.  On the code this
fails: cancelling a Pending task sets its status to Failed, but the Celery
job queued at creation still runs the full pipeline when it is picked up —
`analyze_video_task` never checks the stored status — and moves the Failed
record through Downloading, Analyzing and Syncing to Completed (the status
trace below is the run's write sequence, by `analyze_video_task_spec`). -/
theorem c1_counterexample :
    (getTask exCancelledStore "t1").map (fun t => t.status) = some .failed
    ∧ (getTask (analyze_video_task exCancelledStore "t1" exAdvOk).store "t1").map
        (fun t => t.status) = some .completed
    ∧ statusTrace
        { exTask with
          status := .failed
          message := "Task cancelled by user"
          error := some "Cancelled" }
        (runUpdates exAdvOk true)
      = [.failed, .downloading, .downloading, .analyzing, .analyzing,
         .syncing, .completed] := by
  refine ⟨rfl, rfl, rfl⟩

/-- C1, amended.  Once a record's status reaches Completed it is stable:
along the update trace of the queued pipeline job (initial execution and
all automatic retries), started from any non-Completed record, every
snapshot after a Completed snapshot is still Completed; and the
cancellation endpoint rejects a Completed task with a conflict and leaves
the store untouched.  A Failed record, however, is not terminal: a pipeline
execution on it (an automatic retry, or the queued job of a task cancelled
while Pending) moves it back to Downloading. -/
theorem c1_amended (t : TaskData) (adv : Nat → Adapters)
    (s : Store) (id : String) (t2 : TaskData)
    (h1 : t.status ≠ .completed)
    (h2 : getTask s id = some t2) (h3 : t2.status = .completed) :
    completedStable (statusTrace t (runUpdates adv t.sync_to_feishu)) = true
    ∧ cancel_task s id = (.conflict .completed, s) := by
  constructor
  · exact completedStable_celery adv t.sync_to_feishu (maxRetries + 1) 0 t h1
  · simp [cancel_task, h2, h3]

/-- C1, witness for the amended theorem. -/
theorem c1_amended_witness :
    (exTask.status ≠ .completed
      ∧ getTask exDoneStore "t1" = some exDoneTask ∧ exDoneTask.status = .completed)
    ∧ (completedStable (statusTrace exTask (runUpdates exAdvOk exTask.sync_to_feishu)) = true
      ∧ cancel_task exDoneStore "t1" = (.conflict .completed, exDoneStore)) :=
  ⟨⟨by decide, by decide, by decide⟩,
    c1_amended exTask exAdvOk exDoneStore "t1" exDoneTask (by decide) (by decide) (by decide)⟩

/-- C2.  Cancelling a Pending task succeeds and rewrites exactly the
status (to Failed), the message ("Task cancelled by user") and the error
(exactly "Cancelled"), leaving every other field of the record as it was;
cancelling a task in any other status returns the 400 conflict and returns
the store completely unchanged. -/
theorem c2_cancel_semantics (s : Store) (id : String) (t : TaskData)
    (h : getTask s id = some t) :
    (t.status = .pending →
      (cancel_task s id).fst = .ok ("Task " ++ id ++ " cancelled")
      ∧ getTask (cancel_task s id).snd id
        = some { t with
                 status := .failed
                 message := "Task cancelled by user"
                 error := some "Cancelled" })
    ∧ (t.status ≠ .pending → cancel_task s id = (.conflict t.status, s)) := by
  constructor
  · intro hp
    have h2 := getTask_updateTask_self
      { status := some TaskStatus.failed, message := some "Task cancelled by user"
        error := some "Cancelled" } h
    constructor
    · simp [cancel_task, h, hp]
    · simpa [cancel_task, h, hp, applyUpdate] using h2
  · intro hp
    simp [cancel_task, h, hp]

/-- C2, witness: cancelling the Pending fixture task. -/
theorem c2_cancel_semantics_witness :
    getTask exStore "t1" = some exTask
    ∧ ((exTask.status = .pending →
        (cancel_task exStore "t1").fst = .ok ("Task " ++ "t1" ++ " cancelled")
        ∧ getTask (cancel_task exStore "t1").snd "t1"
          = some { exTask with
                    status := .failed
                    message := "Task cancelled by user"
                    error := some "Cancelled" })
      ∧ (exTask.status ≠ .pending → cancel_task exStore "t1" = (.conflict exTask.status, exStore))) :=
  ⟨by decide, c2_cancel_semantics exStore "t1" exTask (by decide)⟩

/-- C10.  `analyze_video_task` checks only that the record exists, never
its status: for a record in any status whatsoever, when the adapters
succeed on the first execution the run performs the full pipeline once and
leaves the record Completed with the analysis result stored.  In
particular a task cancelled while Pending (status Failed, error
"Cancelled") is still downloaded and analyzed when its queued job is
picked up, and ends Completed (the witness instantiates the record with
the cancelled fixture). -/
theorem c10_pipeline_ignores_status (s : Store) (id : String) (t : TaskData)
    (adv : Nat → Adapters) (h : getTask s id = some t)
    (hdl : (adv 0).download.success = true) (hai : (adv 0).ai.success = true) :
    (getTask (analyze_video_task s id adv).store id).map (fun r => r.status)
      = some .completed
    ∧ (getTask (analyze_video_task s id adv).store id).map (fun r => r.result)
      = some (some (buildAnalysisResult (adv 0).download.metadata (adv 0).ai))
    ∧ (analyze_video_task s id adv).executions = 1 := by
  have hspec := analyze_video_task_spec adv h
  rcases hspec with ⟨hst, hex, _⟩
  have hupd : runUpdates adv t.sync_to_feishu
      = (attemptUpdates t.sync_to_feishu (adv 0)).fst := by
    simp only [runUpdates, celerySpec, attemptUpdates, hdl, hai, if_true]
  have hcnt : (celerySpec adv t.sync_to_feishu (maxRetries + 1) 0).snd.fst = 1 := by
    simp only [celerySpec, attemptUpdates, hdl, hai, if_true]
  rw [hupd] at hst
  refine ⟨?_, ?_, by rw [hex, hcnt]⟩
  · rw [hst]
    cases hf : t.sync_to_feishu <;>
      simp [attemptUpdates, hdl, hai, hf, applyAll, applyUpdate,
        updDownloading, updDownloaded, updAnalyzing, updAnalyzed,
        updSyncing, updCompleted]
  · rw [hst]
    cases hf : t.sync_to_feishu <;>
      simp [attemptUpdates, hdl, hai, hf, applyAll, applyUpdate,
        updDownloading, updDownloaded, updAnalyzing, updAnalyzed,
        updSyncing, updCompleted]

/-- C10, witness: the queued job of the cancelled fixture task runs the
pipeline and completes. -/
theorem c10_pipeline_ignores_status_witness :
    (getTask exCancelledStore "t1"
        = some { exTask with
                  status := .failed
                  message := "Task cancelled by user"
                  error := some "Cancelled" }
      ∧ (exAdvOk 0).download.success = true ∧ (exAdvOk 0).ai.success = true)
    ∧ ((getTask (analyze_video_task exCancelledStore "t1" exAdvOk).store "t1").map
          (fun r => r.status) = some .completed
      ∧ (getTask (analyze_video_task exCancelledStore "t1" exAdvOk).store "t1").map
          (fun r => r.result)
        = some (some (buildAnalysisResult (exAdvOk 0).download.metadata (exAdvOk 0).ai))
      ∧ (analyze_video_task exCancelledStore "t1" exAdvOk).executions = 1) :=
  ⟨⟨by decide, by decide, by decide⟩,
    c10_pipeline_ignores_status exCancelledStore "t1"
      { exTask with
        status := .failed
        message := "Task cancelled by user"
        error := some "Cancelled" }
      exAdvOk (by decide) (by decide) (by decide)⟩

/-- When the download adapter fails on every execution, the run performs
exactly `maxRetries + 1 = 4` executions, each contributing the Downloading
write and the failure write, with the default 60-second delay before each
of the three retries. -/
theorem celerySpec_allFail (adv : Nat → Adapters) (flag : Bool)
    (h : ∀ k, (adv k).download.success = false) :
    celerySpec adv flag (maxRetries + 1) 0
      = ([updDownloading, updFailed (downloadErrorMsg (adv 0).download),
          updDownloading, updFailed (downloadErrorMsg (adv 1).download),
          updDownloading, updFailed (downloadErrorMsg (adv 2).download),
          updDownloading, updFailed (downloadErrorMsg (adv 3).download)],
         4, [60, 60, 60]) := by
  simp [celerySpec, attemptUpdates, h 0, h 1, h 2, h 3, maxRetries, defaultRetryDelay]

/-- One-step unfolding of `celerySpec`. -/
theorem celerySpec_succ (adv : Nat → Adapters) (flag : Bool) (fuel retries : Nat) :
    celerySpec adv flag (fuel + 1) retries
      = (let (upds, out) := attemptUpdates flag (adv retries)
         match out with
         | .failure _ =>
           if retries < maxRetries then
             let (u2, n, ds) := celerySpec adv flag fuel (retries + 1)
             (upds ++ u2, n + 1, defaultRetryDelay :: ds)
           else (upds, 1, [])
         | _ => (upds, 1, [])) := rfl

/-- When the download fails on the first execution, the update trace of the
run starts with the Downloading write and the failure write. -/
theorem runUpdates_dlFail_head (adv : Nat → Adapters) (flag : Bool)
    (hdl : (adv 0).download.success = false) :
    ∃ rest, runUpdates adv flag
      = updDownloading :: updFailed (downloadErrorMsg (adv 0).download) :: rest := by
  rcases hS : celerySpec adv flag maxRetries 1 with ⟨u2, n2, d2⟩
  refine ⟨u2, ?_⟩
  have hA : attemptUpdates flag (adv 0)
      = ([updDownloading, updFailed (downloadErrorMsg (adv 0).download)],
         .failure (downloadErrorMsg (adv 0).download)) := by
    simp [attemptUpdates, hdl]
  show (celerySpec adv flag (maxRetries + 1) 0).fst = _
  rw [celerySpec_succ]
  simp [hA, hS, (show (0:Nat) < maxRetries from by decide)]

/-- When the download succeeds and the analysis fails on the first
execution, the update trace of the run starts with the three stage writes
followed by the failure write. -/
theorem runUpdates_aiFail_head (adv : Nat → Adapters) (flag : Bool)
    (hdl : (adv 0).download.success = true) (hai : (adv 0).ai.success = false) :
    ∃ rest, runUpdates adv flag
      = updDownloading :: updDownloaded (adv 0).download :: updAnalyzing
        :: updFailed (analysisErrorMsg (adv 0).ai) :: rest := by
  rcases hS : celerySpec adv flag maxRetries 1 with ⟨u2, n2, d2⟩
  refine ⟨u2, ?_⟩
  have hA : attemptUpdates flag (adv 0)
      = ([updDownloading, updDownloaded (adv 0).download, updAnalyzing,
          updFailed (analysisErrorMsg (adv 0).ai)],
         .failure (analysisErrorMsg (adv 0).ai)) := by
    simp [attemptUpdates, hdl, hai]
  show (celerySpec adv flag (maxRetries + 1) 0).fst = _
  rw [celerySpec_succ]
  simp [hA, hS, (show (0:Nat) < maxRetries from by decide)]

/-- When every adapter needed succeeds on the first execution, the run is a
single execution whose updates are the success-path writes. -/
theorem runUpdates_success (adv : Nat → Adapters) (flag : Bool)
    (hdl : (adv 0).download.success = true) (hai : (adv 0).ai.success = true) :
    runUpdates adv flag = (attemptUpdates flag (adv 0)).fst := by
  simp only [runUpdates, celerySpec, attemptUpdates, hdl, hai, if_true]

/-- C3, counterexample.  The claim says the orchestrator executes the
pipeline at most 3 times in total before the task becomes terminally
Failed.  On the code the Celery decorator has `max_retries=3` and the
handler retries while `self.request.retries < self.max_retries`, so an
always-failing task executes the pipeline 4 times in total (one initial
execution plus three retries). -/
theorem c3_counterexample :
    (analyze_video_task exStore "t1" exAdvDlFail).executions = 4
    ∧ ¬ (analyze_video_task exStore "t1" exAdvDlFail).executions ≤ 3 := by
  constructor
  · rfl
  · decide

/-- C3, amended.  For a task whose acquisition adapter fails on every
attempt, the orchestrator executes the entire pipeline (restarting from
step 1, including a fresh download) exactly 4 times in total — one initial
execution plus `max_retries = 3` retries — with a fixed 60-second delay
before each retry, and the task ends Failed. -/
theorem c3_amended (s : Store) (id : String) (t : TaskData) (adv : Nat → Adapters)
    (h : getTask s id = some t)
    (hf : ∀ k, (adv k).download.success = false) :
    (analyze_video_task s id adv).executions = 4
    ∧ (analyze_video_task s id adv).delays = [60, 60, 60]
    ∧ (getTask (analyze_video_task s id adv).store id).map (fun r => r.status)
      = some .failed := by
  obtain ⟨hst, hex, hds⟩ := analyze_video_task_spec adv h
  rw [runUpdates] at hst
  rw [celerySpec_allFail adv t.sync_to_feishu hf] at hst hex hds
  refine ⟨by simpa using hex, by simpa using hds, ?_⟩
  rw [hst]
  simp [applyAll, applyUpdate, updDownloading, updFailed]

/-- C3, witness for the amended theorem. -/
theorem c3_amended_witness :
    (getTask exStore "t1" = some exTask
      ∧ ∀ k, ((exAdvDlFail k).download.success = false))
    ∧ ((analyze_video_task exStore "t1" exAdvDlFail).executions = 4
      ∧ (analyze_video_task exStore "t1" exAdvDlFail).delays = [60, 60, 60]
      ∧ (getTask (analyze_video_task exStore "t1" exAdvDlFail).store "t1").map
          (fun r => r.status) = some .failed) :=
  ⟨⟨by decide, fun _ => rfl⟩,
    c3_amended exStore "t1" exTask exAdvDlFail (by decide) (fun _ => rfl)⟩

/-- C4, counterexample.  The claim says the adapter's last error message
is stored verbatim, character for character, with no added prefix.  On the
code the pipeline raises `Exception(f"Download failed: {...}")` and stores
`str(e)`, so an adapter error "boom" is stored as "Download failed: boom",
not "boom". -/
theorem c4_counterexample :
    (getTask (analyze_video_task exStore "t1" exAdvDlFail).store "t1").map
        (fun r => r.error) = some (some "Download failed: boom")
    ∧ (getTask (analyze_video_task exStore "t1" exAdvDlFail).store "t1").map
        (fun r => r.error) ≠ some (some "boom") := by
  constructor
  · rfl
  · decide

/-- C4, amended.  A task whose video acquisition adapter fails on every
attempt ends, after the bounded retry count is exhausted, with
status Failed and with the adapter's last error message stored in `error`
prefixed by "Download failed: " (the message of the exception the pipeline
raises around the adapter error). -/
theorem c4_amended (s : Store) (id : String) (t : TaskData) (adv : Nat → Adapters)
    (e : Nat → String) (h : getTask s id = some t)
    (hf : ∀ k, (adv k).download.success = false)
    (he : ∀ k, (adv k).download.error = some (e k)) :
    (getTask (analyze_video_task s id adv).store id).map (fun r => r.error)
      = some (some ("Download failed: " ++ e 3))
    ∧ (getTask (analyze_video_task s id adv).store id).map (fun r => r.status)
      = some .failed := by
  obtain ⟨hst, -, -⟩ := analyze_video_task_spec adv h
  rw [runUpdates] at hst
  rw [celerySpec_allFail adv t.sync_to_feishu hf] at hst
  rw [hst]
  constructor
  · simp [applyAll, applyUpdate, updDownloading, updFailed, downloadErrorMsg, he 3]
  · simp [applyAll, applyUpdate, updDownloading, updFailed]

/-- C4, witness for the amended theorem. -/
theorem c4_amended_witness :
    (getTask exStore "t1" = some exTask
      ∧ (∀ k, ((exAdvDlFail k).download.success = false))
      ∧ (∀ k, ((exAdvDlFail k).download.error = some "boom")))
    ∧ ((getTask (analyze_video_task exStore "t1" exAdvDlFail).store "t1").map
        (fun r => r.error) = some (some ("Download failed: " ++ "boom"))
      ∧ (getTask (analyze_video_task exStore "t1" exAdvDlFail).store "t1").map
        (fun r => r.status) = some .failed) :=
  ⟨⟨by decide, fun _ => rfl, fun _ => rfl⟩,
    c4_amended exStore "t1" exTask exAdvDlFail (fun _ => "boom") (by decide)
      (fun _ => rfl) (fun _ => rfl)⟩

/-- C5.  When the download and analysis succeed but the requested sync
destination fails, the pipeline does not fail: the single execution ends
with the record Completed at progress 100, the `result` populated, and the
sync record identifier fields still unset (the failed sync yields no id,
and `update_task` leaves an absent field untouched). -/
theorem c5_sync_failure_tolerated (s : Store) (id : String) (t : TaskData)
    (adv : Nat → Adapters) (h : getTask s id = some t)
    (hflag : t.sync_to_feishu = true)
    (hfr : t.feishu_record_id = none) (hnp : t.notion_page_id = none)
    (hdl : (adv 0).download.success = true) (hai : (adv 0).ai.success = true)
    (hsy : (adv 0).sync.success = false) :
    (getTask (analyze_video_task s id adv).store id).map (fun r => r.status)
      = some .completed
    ∧ (getTask (analyze_video_task s id adv).store id).map (fun r => r.progress)
      = some 100
    ∧ (getTask (analyze_video_task s id adv).store id).map (fun r => r.result)
      = some (some (buildAnalysisResult (adv 0).download.metadata (adv 0).ai))
    ∧ (getTask (analyze_video_task s id adv).store id).map (fun r => r.feishu_record_id)
      = some none
    ∧ (getTask (analyze_video_task s id adv).store id).map (fun r => r.notion_page_id)
      = some none
    ∧ (analyze_video_task s id adv).executions = 1 := by
  obtain ⟨hst, hex, -⟩ := analyze_video_task_spec adv h
  rw [runUpdates_success adv t.sync_to_feishu hdl hai] at hst
  have hcnt : (celerySpec adv t.sync_to_feishu (maxRetries + 1) 0).snd.fst = 1 := by
    simp only [celerySpec, attemptUpdates, hdl, hai, if_true]
  refine ⟨?_, ?_, ?_, ?_, ?_, by rw [hex, hcnt]⟩ <;>
    · rw [hst]
      simp [attemptUpdates, hdl, hai, hsy, hflag, applyAll, applyUpdate,
        updDownloading, updDownloaded, updAnalyzing, updAnalyzed,
        updSyncing, updCompleted, hfr, hnp]

/-- C5, witness: the fixture task with a failing sync destination. -/
theorem c5_sync_failure_tolerated_witness :
    (getTask exStore "t1" = some exTask
      ∧ exTask.sync_to_feishu = true
      ∧ exTask.feishu_record_id = none ∧ exTask.notion_page_id = none
      ∧ (exAdvSyncFail 0).download.success = true
      ∧ (exAdvSyncFail 0).ai.success = true
      ∧ (exAdvSyncFail 0).sync.success = false)
    ∧ ((getTask (analyze_video_task exStore "t1" exAdvSyncFail).store "t1").map
        (fun r => r.status) = some .completed
      ∧ (getTask (analyze_video_task exStore "t1" exAdvSyncFail).store "t1").map
        (fun r => r.progress) = some 100
      ∧ (getTask (analyze_video_task exStore "t1" exAdvSyncFail).store "t1").map
        (fun r => r.result)
        = some (some (buildAnalysisResult (exAdvSyncFail 0).download.metadata (exAdvSyncFail 0).ai))
      ∧ (getTask (analyze_video_task exStore "t1" exAdvSyncFail).store "t1").map
        (fun r => r.feishu_record_id) = some none
      ∧ (getTask (analyze_video_task exStore "t1" exAdvSyncFail).store "t1").map
        (fun r => r.notion_page_id) = some none
      ∧ (analyze_video_task exStore "t1" exAdvSyncFail).executions = 1) :=
  ⟨⟨by decide, by decide, by decide, by decide, by decide, by decide, by decide⟩,
    c5_sync_failure_tolerated exStore "t1" exTask exAdvSyncFail (by decide) (by decide)
      (by decide) (by decide) (by decide) (by decide) (by decide)⟩

/-- C6, counterexample.  The claim says `error` is non-null only while the
status is Failed — in particular a task that failed on an earlier pipeline
attempt and then succeeded on a retry has a null `error`.  On the code
`update_task` never clears a field (passing `None` means "leave
unchanged"), and the success path never writes `error`, so a task whose
first execution failed with "boom" and whose retry succeeded ends
Completed with the stale error "Download failed: boom". -/
theorem c6_counterexample :
    (getTask (analyze_video_task exStore "t1" exAdvFlaky).store "t1").map
        (fun r => r.status) = some .completed
    ∧ (getTask (analyze_video_task exStore "t1" exAdvFlaky).store "t1").map
        (fun r => r.error) = some (some "Download failed: boom") := by
  constructor
  · rfl
  · rfl

/-- C6, amended.  For a record created with a null `error`, after the
queued job finishes the `error` field is null **iff** the first pipeline
execution succeeded: any failed execution writes `error`, a later
successful retry sets status Completed but never clears `error`, and a
successful first execution means no execution ever failed. -/
theorem c6_amended (s : Store) (id : String) (t : TaskData) (adv : Nat → Adapters)
    (h : getTask s id = some t) (he : t.error = none) :
    ((getTask (analyze_video_task s id adv).store id).map (fun r => r.error)
        = some none
      ↔ ((adv 0).download.success = true ∧ (adv 0).ai.success = true)) := by
  obtain ⟨hst, -, -⟩ := analyze_video_task_spec adv h
  rw [hst]
  simp only [Option.map_some', Option.some.injEq]
  constructor
  · intro hnone
    cases hdl : (adv 0).download.success with
    | false =>
      obtain ⟨rest, hru⟩ := runUpdates_dlFail_head adv t.sync_to_feishu hdl
      rw [hru] at hnone
      have h2 : (applyAll
          (applyUpdate (applyUpdate t updDownloading)
            (updFailed (downloadErrorMsg (adv 0).download))) rest).error = none := by
        simpa [applyAll] using hnone
      have h3 := applyAll_error_none h2
      simp [applyUpdate, updFailed, updDownloading] at h3
    | true =>
      cases hai : (adv 0).ai.success with
      | false =>
        obtain ⟨rest, hru⟩ := runUpdates_aiFail_head adv t.sync_to_feishu hdl hai
        rw [hru] at hnone
        have h2 : (applyAll
            (applyUpdate (applyUpdate (applyUpdate (applyUpdate t updDownloading)
                (updDownloaded (adv 0).download)) updAnalyzing)
              (updFailed (analysisErrorMsg (adv 0).ai))) rest).error = none := by
          simpa [applyAll] using hnone
        have h3 := applyAll_error_none h2
        simp [applyUpdate, updFailed, updDownloading, updDownloaded, updAnalyzing] at h3
      | true => exact ⟨rfl, rfl⟩
  · rintro ⟨hdl, hai⟩
    rw [runUpdates_success adv t.sync_to_feishu hdl hai]
    cases hf : t.sync_to_feishu <;>
      simp [attemptUpdates, hdl, hai, hf, applyAll, applyUpdate,
        updDownloading, updDownloaded, updAnalyzing, updAnalyzed,
        updSyncing, updCompleted, he]

/-- C6, witness for the amended theorem: a record whose first execution
succeeds keeps a null `error`. -/
theorem c6_amended_witness :
    (getTask exStore "t1" = some exTask ∧ exTask.error = none)
    ∧ ((getTask (analyze_video_task exStore "t1" exAdvOk).store "t1").map
          (fun r => r.error) = some none
        ↔ ((exAdvOk 0).download.success = true ∧ (exAdvOk 0).ai.success = true)) :=
  ⟨⟨by decide, by decide⟩,
    c6_amended exStore "t1" exTask exAdvOk (by decide) (by decide)⟩

/-- The progress values passed to `update_task`, in order, by a write
sequence (writes that pass no progress contribute nothing). -/
def progressWrites (l : List UpdateFields) : List Nat :=
  l.filterMap (fun u => u.progress)

/-- C7.  Within a single pipeline execution the progress values written
are non-decreasing, starting from the creation value 0, whatever the
adapter outcomes; and when the execution runs to completion they are
exactly 10, 30 (Downloading), 40, 70 (Analyzing), 80 (Syncing — present
only when a sync destination is requested), 100 (Completed). -/
theorem c7_progress_monotone (flag : Bool) (a : Adapters) :
    List.Chain' (fun x y => x ≤ y) (0 :: progressWrites (attemptUpdates flag a).fst)
    ∧ (a.download.success = true → a.ai.success = true →
        progressWrites (attemptUpdates flag a).fst
          = if flag then [10, 30, 40, 70, 80, 100] else [10, 30, 40, 70, 100]) := by
  cases hdl : a.download.success <;> cases hai : a.ai.success <;> cases hf : flag <;>
    simp [attemptUpdates, progressWrites, hdl, hai, updDownloading, updDownloaded,
      updAnalyzing, updAnalyzed, updSyncing, updCompleted, updFailed]

/-- C7, witness: a fully successful execution with sync requested. -/
theorem c7_progress_monotone_witness :
    ((exAdvOk 0).download.success = true ∧ (exAdvOk 0).ai.success = true)
    ∧ (List.Chain' (fun x y => x ≤ y)
        (0 :: progressWrites (attemptUpdates true (exAdvOk 0)).fst)
      ∧ ((exAdvOk 0).download.success = true → (exAdvOk 0).ai.success = true →
          progressWrites (attemptUpdates true (exAdvOk 0)).fst
            = if true then [10, 30, 40, 70, 80, 100] else [10, 30, 40, 70, 100])) :=
  ⟨⟨by decide, by decide⟩, c7_progress_monotone true (exAdvOk 0)⟩

/-- A task-creation request whose URL contains "tiktok.com" only in its
query string: its host is not an allowed video-platform domain. -/
def exBadUrlReq : VideoAnalysisRequest :=
  ⟨"https://evil.example/?ref=tiktok.com", none, none, true⟩

/-- C8, counterexample.  The claim says every request whose URL does not
match an allowed video-platform domain (TikTok or Douyin) is rejected
before any record is written.  The code checks Python substring
containment (`domain in request.url`), not the URL's host: a URL whose
host is `evil.example` but whose query string contains "tiktok.com"
passes validation, a record is written for it and a job is enqueued. -/
theorem c8_counterexample :
    urlMatchesAllowedDomain "https://evil.example/?ref=tiktok.com" = false
    ∧ (create_analysis_task exBadUrlReq "task_x" [] []).fst
        = .created "task_x" .pending "Task created and queued for processing"
    ∧ getTask (create_analysis_task exBadUrlReq "task_x" [] []).snd.fst "task_x"
        = some (createTaskData "task_x" "https://evil.example/?ref=tiktok.com"
            none none true true)
    ∧ (create_analysis_task exBadUrlReq "task_x" [] []).snd.snd = ["task_x"] := by
  refine ⟨by decide, ?_, ?_, ?_⟩ <;> rfl

/-- C8, amended.  Every task-creation request whose URL does not contain
"tiktok.com" or "douyin.com" as a substring is rejected with a 400
validation error before any task record is created: the store and the job
queue are returned untouched.  (The code tests substring containment, not
a host-level domain match.) -/
theorem c8_amended (req : VideoAnalysisRequest) (fresh : String)
    (s : Store) (q : List String)
    (h : urlPassesGatewayCheck req.url = false) :
    create_analysis_task req fresh s q
      = (.badRequest "Invalid URL. Must be a TikTok or Douyin video URL.", s, q) := by
  simp [create_analysis_task, h]

/-- C8, witness: a URL with no allowed-platform substring is rejected. -/
theorem c8_amended_witness :
    urlPassesGatewayCheck "https://example.com/watch" = false
    ∧ create_analysis_task ⟨"https://example.com/watch", none, none, true⟩ "task_y" [] []
      = (.badRequest "Invalid URL. Must be a TikTok or Douyin video URL.", [], []) :=
  ⟨by decide,
    c8_amended ⟨"https://example.com/watch", none, none, true⟩ "task_y" [] [] (by decide)⟩

/-! ## Script-generation lemmas and claim -/

theorem getScript_append_single (s : ScriptStore) (vid : String) (r : ScriptRecord)
    (h : s.find? (fun p => p.fst == vid) = none) :
    getScript (s ++ [(vid, r)]) vid = some r := by
  induction s with
  | nil => simp [getScript, List.find?]
  | cons p rest ih =>
    cases hp : (p.fst == vid) with
    | true => simp [List.find?, hp] at h
    | false =>
      rw [List.find?_cons_of_neg _ (by simp [hp])] at h
      simp only [List.cons_append, getScript]
      rw [List.find?_cons_of_neg _ (by simp [hp])]
      simpa [getScript] using ih h

theorem getScript_set (s : ScriptStore) (vid : String) (r : ScriptRecord)
    (h : (s.find? (fun p => p.fst == vid)).isSome) :
    getScript (s.map (fun p => if p.fst == vid then (vid, r) else p)) vid = some r := by
  induction s with
  | nil => simp [List.find?] at h
  | cons p rest ih =>
    cases hp : (p.fst == vid) with
    | true =>
      simp only [List.map_cons, hp, if_true, getTask, getScript]
      rw [List.find?_cons_of_pos _ (by simp)]
    | false =>
      rw [List.find?_cons_of_neg _ (by simp [hp])] at h
      simp only [List.map_cons, hp, Bool.false_eq_true, if_false, getScript]
      rw [List.find?_cons_of_neg _ (by simp [hp])]
      simpa [getScript] using ih h

/-- `save_script` followed by `get_script` on the same task id returns the
just-saved record. -/
theorem getScript_saveScript (s : ScriptStore) (vid : String) (r : ScriptRecord) :
    getScript (saveScript s vid r) vid = some r := by
  unfold saveScript
  cases hf : s.find? (fun p => p.fst == vid) with
  | none => exact getScript_append_single s vid r hf
  | some p => exact getScript_set s vid r (by simp [hf])

/-- C9.  Script generation is idempotent per task id: for a Completed task
with a result and no stored script yet, the first call (configured API
key, successful generator, non-empty document) invokes the generator and
returns a fresh script id with the generated document; a second call —
with any generator outcome and any fresh id — returns the *same* script id
and the *same* document, does not invoke the generation adapter, and
leaves the script store unchanged. -/
theorem c9_script_idempotent (apiKey vid ty : String) (tasks : Store)
    (scripts : ScriptStore) (gen1 gen2 : GenOutcome) (id1 id2 : String)
    (task : TaskData) (r : AnalysisResult)
    (h1 : getTask tasks vid = some task) (h2 : task.status = .completed)
    (h3 : task.result = some r) (h4 : getScript scripts vid = none)
    (h5 : apiKey ≠ "") (h6 : gen1.success = true) (h7 : gen1.script ≠ []) :
    (generate_script apiKey vid ty tasks scripts gen1 id1).fst = .ok id1 gen1.script
    ∧ (generate_script apiKey vid ty tasks scripts gen1 id1).snd.snd = true
    ∧ generate_script apiKey vid ty tasks
        (generate_script apiKey vid ty tasks scripts gen1 id1).snd.fst gen2 id2
      = (.ok id1 gen1.script,
         (generate_script apiKey vid ty tasks scripts gen1 id1).snd.fst, false) := by
  have hcall1 : generate_script apiKey vid ty tasks scripts gen1 id1
      = (.ok id1 gen1.script,
         saveScript scripts vid
           { script_id := id1, video_analysis_id := vid
             script_type := ty, script_data := gen1.script },
         true) := by
    simp [generate_script, h1, h2, h3, h4, generateAndSave, h5, h6]
  refine ⟨by rw [hcall1], by rw [hcall1], ?_⟩
  rw [hcall1]
  have hget : getScript (saveScript scripts vid
      { script_id := id1, video_analysis_id := vid
        script_type := ty, script_data := gen1.script }) vid
      = some { script_id := id1, video_analysis_id := vid
               script_type := ty, script_data := gen1.script } :=
    getScript_saveScript scripts vid _
  simp [generate_script, h1, h2, h3, hget, h7]

/-- C9, witness: generate a script for the Completed fixture task, then
call again. -/
theorem c9_script_idempotent_witness :
    (getTask exDoneStore "t1" = some exDoneTask
      ∧ exDoneTask.status = .completed
      ∧ exDoneTask.result = some (buildAnalysisResult exMetadata exAiOk)
      ∧ getScript [] "t1" = none
      ∧ ("key" : String) ≠ "" ∧ exGenOk.success = true ∧ exGenOk.script ≠ [])
    ∧ ((generate_script "key" "t1" "full" exDoneStore [] exGenOk "script_a").fst
        = .ok "script_a" exGenOk.script
      ∧ (generate_script "key" "t1" "full" exDoneStore [] exGenOk "script_a").snd.snd = true
      ∧ generate_script "key" "t1" "full" exDoneStore
          (generate_script "key" "t1" "full" exDoneStore [] exGenOk "script_a").snd.fst
          ⟨true, [("other", "doc")], none⟩ "script_b"
        = (.ok "script_a" exGenOk.script,
           (generate_script "key" "t1" "full" exDoneStore [] exGenOk "script_a").snd.fst,
           false)) :=
  ⟨⟨by decide, by decide, by decide, by decide, by decide, by decide, by decide⟩,
    c9_script_idempotent "key" "t1" "full" exDoneStore [] exGenOk
      ⟨true, [("other", "doc")], none⟩ "script_a" "script_b" exDoneTask
      (buildAnalysisResult exMetadata exAiOk)
      (by decide) (by decide) (by decide) (by decide) (by decide) (by decide) (by decide)⟩

end TikTokAnalyzer
